import Mathlib

/-!
Verification development for the `compare-acl` command of the uhppoted
ACL/S3 reconciliation tool.

The development shallowly embeds the two Go source files of the repository:

* `commands/compare_acl.go` — the current orchestrating command, with a
  templated report, an optional local report file (`no-report`) and an
  optional signed report upload (`-report`).
* an earlier revision of the same command (here the `V1` definitions) which
  collapses report and upload handling and ends with an unconditional error.

External collaborators (HTTP/S3 transport, the tar codec, RSA signing and
verification, the TSV parser, live device retrieval, the Go template
engine and the file system) are modelled as oracle functions supplied to
the embedded pipeline; the pipeline itself — the control flow, the data
flow between the steps, the dispatch on URI scheme, error propagation and
the log/side-effect trace — is translated statement by statement from the
Go source.  The Diff Engine (`acl.Compare`) and the per-device section
structure of the report template are modelled as well, the former from the
specification because its code is not part of the two source files.
-/

/-- Byte strings are modelled as lists of byte values. -/
abbrev Bytes := List Nat

/-- Go `error` values are modelled as strings (the message). -/
abbrev Err := String

/-- An access record: uniquely keyed within a device's record set, carrying
named field values compared field-by-field (spec section 3, `Record`). -/
structure Record where
  key : Nat
  fields : List String
deriving DecidableEq, Repr

/-- An ACL: a mapping from device identifier to its record list
(spec section 3, `ACL`). -/
abbrev ACL := List (Nat × List Record)

/-- Modelled from the spec: record lookup by key inside one device's record
set (spec 4.4 step 1, "build a lookup of records by record key").  The Diff
Engine (`acl.Compare`) is not among the repository files under `src/`. -/
def lookupR (rs : List Record) (k : Nat) : Option Record :=
  rs.find? (fun r => r.key == k)

/-- The distinct record keys of a record set. -/
def keysR (rs : List Record) : List Nat :=
  (rs.map Record.key).dedup

/-- Modelled from the spec: the four classifications of a per-device diff
(spec section 3, `Diff`).  `Updated` retains both the current and the
authoritative record for reporting. -/
structure Diff where
  Unchanged : List Record
  Updated : List (Record × Record)
  Added : List Record
  Deleted : List Record
deriving DecidableEq, Repr

/-- The union of the record keys of the two sides (spec 4.4, "per device
identifier appearing in either ACL" applied at record level: the union of
record keys from both sides). -/
def unionKeys (current authoritative : List Record) : List Nat :=
  (keysR current ++ keysR authoritative).dedup

/-- Spec 4.4 step 2, first half: a key present in both sides whose records
are equal field-by-field classifies `Unchanged`. -/
def classifyUnchanged (current authoritative : List Record) (k : Nat) : Option Record :=
  match lookupR current k, lookupR authoritative k with
  | some rc, some ra => if rc = ra then some rc else none
  | _, _ => none

/-- Spec 4.4 step 2, second half: a key present in both sides whose records
differ classifies `Updated`, retaining the current and the authoritative
record. -/
def classifyUpdated (current authoritative : List Record) (k : Nat) : Option (Record × Record) :=
  match lookupR current k, lookupR authoritative k with
  | some rc, some ra => if rc = ra then none else some (rc, ra)
  | _, _ => none

/-- Spec 4.4 step 3: a key present only in the authoritative side classifies
`Added`. -/
def classifyAdded (current authoritative : List Record) (k : Nat) : Option Record :=
  match lookupR current k, lookupR authoritative k with
  | none, some ra => some ra
  | _, _ => none

/-- Spec 4.4 step 4: a key present only in the current side classifies
`Deleted`. -/
def classifyDeleted (current authoritative : List Record) (k : Nat) : Option Record :=
  match lookupR current k, lookupR authoritative k with
  | some rc, none => some rc
  | _, _ => none

/-- Modelled from the spec: the Diff Engine algorithm of spec 4.4, per
device: for each key present in both sides, `Unchanged` when the records are
equal and `Updated` (current, authoritative) otherwise; keys only in the
authoritative ACL are `Added`; keys only in the current ACL are `Deleted`.
The engine iterates the union of the two key sets. -/
def diffRecords (current authoritative : List Record) : Diff :=
  { Unchanged := (unionKeys current authoritative).filterMap (classifyUnchanged current authoritative)
  , Updated := (unionKeys current authoritative).filterMap (classifyUpdated current authoritative)
  , Added := (unionKeys current authoritative).filterMap (classifyAdded current authoritative)
  , Deleted := (unionKeys current authoritative).filterMap (classifyDeleted current authoritative) }

/-- The distinct device identifiers of an ACL. -/
def deviceIds (a : ACL) : List Nat :=
  (a.map Prod.fst).dedup

/-- The record set an ACL holds for a device (empty when the device is
absent from the ACL). -/
def recordsFor (a : ACL) (d : Nat) : List Record :=
  match a.find? (fun p => p.1 == d) with
  | some p => p.2
  | none => []

/-- Modelled from the spec: the full diff, one `Diff` per device appearing
in either ACL (spec 4.4, "per device identifier appearing in either ACL"). -/
def compareACLs (current authoritative : ACL) : List (Nat × Diff) :=
  ((deviceIds current ++ deviceIds authoritative).dedup).map
    fun d => (d, diffRecords (recordsFor current d) (recordsFor authoritative d))

/-- The record keys classified `Unchanged`. -/
def Diff.unchangedKeys (d : Diff) : List Nat := d.Unchanged.map Record.key

/-- The record keys classified `Updated` (the key of the current record;
both records of a pair share their key). -/
def Diff.updatedKeys (d : Diff) : List Nat := d.Updated.map fun p => p.1.key

/-- The record keys classified `Added`. -/
def Diff.addedKeys (d : Diff) : List Nat := d.Added.map Record.key

/-- The record keys classified `Deleted`. -/
def Diff.deletedKeys (d : Diff) : List Nat := d.Deleted.map Record.key

/-- The per-device diff value as the report template receives it: the four
collections, each entry already rendered to its display string (the template
shows entries with a plain field access). -/
structure TDiff where
  Unchanged : List String
  Updated : List String
  Added : List String
  Deleted : List String
deriving DecidableEq, Repr

/-- One emitted line of the per-device block of the report. -/
inductive Line where
  | device (id : Nat)
  | incorrectHeader
  | missingHeader
  | unexpectedHeader
  | item (s : String)
deriving DecidableEq, Repr

/-- Shallow embedding of the per-device body of the `COMPARE_ACL` template
(`compare_acl.go` lines 36-43): the device line, then three conditional
sections whose bodies range over `Updated`, `Added` and `Deleted`.  A Go
template conditional on a slice is taken exactly when the slice is
non-empty.  Note that in the source template the guard of the
`Incorrect:` section is `$value.Unchanged` while its body ranges over
`$value.Updated`; the other two sections are guarded by the collection
they range over. -/
def renderDevice (id : Nat) (v : TDiff) : List Line :=
  [Line.device id]
    ++ (if v.Unchanged ≠ [] then Line.incorrectHeader :: v.Updated.map Line.item else [])
    ++ (if v.Added ≠ [] then Line.missingHeader :: v.Added.map Line.item else [])
    ++ (if v.Deleted ≠ [] then Line.unexpectedHeader :: v.Deleted.map Line.item else [])

/-- Go `unicode.IsSpace`: the Unicode white-space code points. -/
def isGoSpace (c : Char) : Bool :=
  c.toNat ∈ [0x9, 0xA, 0xB, 0xC, 0xD, 0x20, 0x85, 0xA0, 0x1680,
              0x2028, 0x2029, 0x202F, 0x205F, 0x3000]
    || (0x2000 ≤ c.toNat && c.toNat ≤ 0x200A)

/-- Go `strings.TrimSpace`: drops leading and trailing white space. -/
def goTrimSpace (s : String) : String :=
  String.mk ((((s.data.dropWhile isGoSpace).reverse).dropWhile isGoSpace).reverse)

/-- Character-list version of Go `strings.HasPrefix`. -/
def listHasPre : List Char → List Char → Bool
  | [], _ => true
  | _ :: _, [] => false
  | a :: as, b :: bs => a == b && listHasPre as bs

/-- Go `strings.HasPrefix s pre`. -/
def goHasPre (pre s : String) : Bool :=
  listHasPre pre.data s.data

/-- The bytes of a Go string (`[]byte(s)` modelled at code-point level). -/
def strBytes (s : String) : Bytes :=
  s.data.map Char.toNat

/-- The events of one pipeline run: the log lines the command writes and the
externally visible calls it makes, in program order. -/
inductive Event where
  | logFetching (uri : String)
  | logFetched (uri : String) (n : Nat)
  | logExtracted (uri : String) (ntsv nsig : Nat)
  | verify (uname : String) (tsv sig : Bytes) (keysdir : String)
  | parse (tsv : Bytes)
  | logRecords (dev : Nat) (n : Nat)
  | getACL
  | logGenReport
  | logWritingReport (path : String)
  | create (path : String)
  | render
  | logUploading
  | sign (keyfile : String)
  | targz
  | logTard (nrpt nsig ntar : Nat)
  | store (uri : String)
  | logUploaded (uri : String)
  | urlParse (s : String)
  | loadConfig (path : String)
  | getDevices
  | reportV1 (workdir : String)
deriving DecidableEq, Repr

/-- Whether an event is a log line (as opposed to an external call). -/
def Event.isLog : Event → Bool
  | .logFetching _ => true
  | .logFetched _ _ => true
  | .logExtracted _ _ _ => true
  | .logRecords _ _ => true
  | .logGenReport => true
  | .logWritingReport _ => true
  | .logUploading => true
  | .logTard _ _ _ => true
  | .logUploaded _ => true
  | _ => false

/-- The local file system, as the pipeline touches it: the files it has
created, with the content successfully written to each. -/
abbrev Files := List (String × String)

/-- What `untar` returns (`tsv, signature, uname, err`).  All four values are
returned together; the error is a separate component, exactly as in Go. -/
structure UntarResult where
  tsv : Bytes
  signature : Bytes
  uname : String
  err : Option Err
deriving Repr

/-- The external collaborators of the pipeline, supplied as oracles: HTTP and
S3 transport, the tar codec, RSA verification and signing, the TSV parser,
live device retrieval, template rendering and file creation. -/
structure Oracles where
  fetchHTTP : String → Except Err Bytes
  fetchS3 : String → Except Err Bytes
  untar : Bytes → UntarResult
  verify : String → Bytes → Bytes → String → Option Err
  parseTSV : Bytes → Except Err ACL
  getACL : Except Err ACL
  render : ACL → ACL → String → Except Err String
  createFile : String → Except Err Unit
  timeName : String
  sign : Bytes → String → Except Err Bytes
  targz : List (String × Bytes) → Except Err Bytes
  storeHTTP : String → Bytes → Except Err Unit
  storeS3 : String → Bytes → Except Err Unit
  reportV1 : ACL → ACL → String → Except Err Unit

/-- The `CompareACL` command configuration (`compare_acl.go` lines 47-63). -/
structure CompareACL where
  acl : String
  rpt : String
  config : String
  workdir : String
  keysdir : String
  keyfile : String
  credentials : String
  region : String
  logFile : String
  logFileSize : Nat
  template : String
  noverify : Bool
  noreport : Bool
  nolog : Bool
  debug : Bool

/-- The process-wide default paths and sizes (`DEFAULT_CONFIG` etc.), defined
in a repository file outside the two sources; kept abstract. -/
structure Defaults where
  config : String
  workdir : String
  keysdir : String
  keyfile : String
  credentials : String
  region : String
  logFile : String
  logFileSize : Nat

/-- The report template of `COMPARE_ACL` (`compare_acl.go` lines 35-44). -/
def TEMPLATE : String :=
  "ACL DIFF REPORT \x7b\x7b .DateTime \x7d\x7d\n" ++
  "\x7b\x7brange $id,$value := .Diffs\x7d\x7d\n" ++
  "  DEVICE \x7b\x7b $id \x7d\x7d\x7b\x7bif $value.Unchanged\x7d\x7d\n" ++
  "    Incorrect:  \x7b\x7brange $value.Updated\x7d\x7d\x7b\x7b.\x7d\x7d\n" ++
  "                \x7b\x7bend\x7d\x7d\x7b\x7bend\x7d\x7d\x7b\x7bif $value.Added\x7d\x7d\n" ++
  "    Missing:    \x7b\x7brange $value.Added\x7d\x7d\x7b\x7b.\x7d\x7d\n" ++
  "                \x7b\x7bend\x7d\x7d\x7b\x7bend\x7d\x7d\x7b\x7bif $value.Deleted\x7d\x7d\n" ++
  "    Unexpected: \x7b\x7brange $value.Deleted\x7d\x7d\x7b\x7b.\x7d\x7d\n" ++
  "                \x7b\x7bend\x7d\x7d\x7b\x7bend\x7d\x7d\x7b\x7bend\x7d\x7d\n"

/-- The package-level `COMPARE_ACL` value (`compare_acl.go` lines 22-45):
every boolean option, in particular `noverify`, is initialised to `false`;
`acl` and `rpt` start as the Go zero value (the empty string). -/
def COMPARE_ACL (d : Defaults) : CompareACL :=
  { acl := ""
  , rpt := ""
  , config := d.config
  , workdir := d.workdir
  , keysdir := d.keysdir
  , keyfile := d.keyfile
  , credentials := d.credentials
  , region := d.region
  , logFile := d.logFile
  , logFileSize := d.logFileSize
  , template := TEMPLATE
  , noverify := false
  , noreport := false
  , nolog := false
  , debug := false }

/-- The `report` method (`compare_acl.go` lines 227-248).  With `noreport`
set, the report is rendered to stdout and the rendering result is discarded
(source line 231); otherwise a time-named file is created in `workdir` and
the rendering result is returned.  Returns the method result, the events in
program order, and the file system after the call. -/
def CompareACL.reportStep (c : CompareACL) (o : Oracles) (current list : ACL)
    (files : Files) : Except Err Unit × List Event × Files :=
  if c.noreport then
    -- report(current, list, c.template, os.Stdout): the returned error is
    -- not consulted by the source.
    (Except.ok (), [Event.logGenReport, Event.render], files)
  else
    let file := c.workdir ++ "/" ++ o.timeName
    match o.createFile file with
    | Except.error e => (Except.error e, [Event.logGenReport, Event.create file], files)
    | Except.ok () =>
      match o.render current list c.template with
      | Except.error e =>
        (Except.error e,
         [Event.logGenReport, Event.create file, Event.logWritingReport file, Event.render],
         files ++ [(file, "")])
      | Except.ok text =>
        (Except.ok (),
         [Event.logGenReport, Event.create file, Event.logWritingReport file, Event.render],
         files ++ [(file, text)])

/-- The `upload` method (`compare_acl.go` lines 250-290): render the report
to a string, sign it, bundle report and signature with `targz`, and store the
bundle at `c.rpt`, dispatching on the `s3://` scheme.  The method touches no
local file. -/
def CompareACL.upload (c : CompareACL) (o : Oracles) (current list : ACL) :
    Except Err Unit × List Event :=
  match o.render current list c.template with
  | Except.error e => (Except.error e, [Event.logUploading, Event.render])
  | Except.ok text =>
    let filename := o.timeName
    let rpt := strBytes text
    match o.sign rpt c.keyfile with
    | Except.error e =>
      (Except.error e, [Event.logUploading, Event.render, Event.sign c.keyfile])
    | Except.ok signature =>
      match o.targz [(filename, rpt), ("signature", signature)] with
      | Except.error e =>
        (Except.error e,
         [Event.logUploading, Event.render, Event.sign c.keyfile, Event.targz])
      | Except.ok b =>
        let tr := [Event.logUploading, Event.render, Event.sign c.keyfile, Event.targz,
                   Event.logTard rpt.length signature.length b.length]
        let f := if goHasPre "s3://" c.rpt then o.storeS3 else o.storeHTTP
        match f c.rpt b with
        | Except.error e => (Except.error e, tr ++ [Event.store c.rpt])
        | Except.ok () =>
          (Except.ok (), tr ++ [Event.store c.rpt, Event.logUploaded c.rpt])

/-- The tail of `execute` from the `acl.ParseTSV` call on (`compare_acl.go`
lines 170-194): parse the extracted payload, log the per-device record
counts, retrieve the live device state, generate the report and, when a
report URL is configured, upload the signed report. -/
def CompareACL.executeTail (c : CompareACL) (o : Oracles) (tsv : Bytes)
    (files : Files) : Except Err Unit × List Event × Files :=
  match o.parseTSV tsv with
  | Except.error e => (Except.error e, [Event.parse tsv], files)
  | Except.ok list =>
    let tr := [Event.parse tsv] ++ list.map (fun kl => Event.logRecords kl.1 kl.2.length)
    match o.getACL with
    | Except.error e => (Except.error e, tr ++ [Event.getACL], files)
    | Except.ok current =>
      let tr := tr ++ [Event.getACL]
      match c.reportStep o current list files with
      | (Except.error e, tr2, files2) => (Except.error e, tr ++ tr2, files2)
      | (Except.ok (), tr2, files2) =>
        if c.rpt ≠ "" then
          match c.upload o current list with
          | (Except.error e, tr3) => (Except.error e, tr ++ tr2 ++ tr3, files2)
          | (Except.ok (), tr3) => (Except.ok (), tr ++ tr2 ++ tr3, files2)
        else
          (Except.ok (), tr ++ tr2, files2)

/-- The `execute` method (`compare_acl.go` lines 146-195): fetch the archive
(dispatching on the `s3://` scheme), `untar` it — the source assigns but
never consults the error returned by `untar` (line 160) — verify the
extracted payload against the extracted signature unless `noverify` is set,
then hand the payload to `executeTail`. -/
def CompareACL.execute (c : CompareACL) (o : Oracles) (uri : String)
    (files : Files) : Except Err Unit × List Event × Files :=
  let f := if goHasPre "s3://" uri then o.fetchS3 else o.fetchHTTP
  match f uri with
  | Except.error e => (Except.error e, [Event.logFetching uri], files)
  | Except.ok b =>
    let u := o.untar b
    -- `tsv, signature, uname, err := untar(r)`: `u.err` is dropped here,
    -- exactly as in the source.
    let tr := [Event.logFetching uri, Event.logFetched uri b.length,
               Event.logExtracted uri u.tsv.length u.signature.length]
    if c.noverify then
      let (res, tr2, files2) := c.executeTail o u.tsv files
      (res, tr ++ tr2, files2)
    else
      match o.verify u.uname u.tsv u.signature c.keysdir with
      | some e =>
        (Except.error e, tr ++ [Event.verify u.uname u.tsv u.signature c.keysdir], files)
      | none =>
        let (res, tr2, files2) := c.executeTail o u.tsv files
        (res, tr ++ [Event.verify u.uname u.tsv u.signature c.keysdir] ++ tr2, files2)

/-- The outer oracles of `Execute`: `url.Parse` (the parsed URL rendered
back to a string) and `config.Load`. -/
structure OuterOracles where
  urlParse : String → Except Err String
  loadConfig : String → Except Err Unit

/-- The `Execute` method (`compare_acl.go` lines 118-144): reject a blank
ACL URL, parse it, load the configuration, resolve the devices and run
`execute`.  The logger construction (`nolog`) only selects the log sink and
is not otherwise observable. -/
def CompareACL.Execute (c : CompareACL) (o : Oracles) (oo : OuterOracles)
    (files : Files) : Except Err Unit × List Event × Files :=
  if goTrimSpace c.acl = "" then
    (Except.error "compare-acl requires a URL for the authoritative ACL file in the command options",
     [], files)
  else
    match oo.urlParse c.acl with
    | Except.error _ =>
      (Except.error ("Invalid ACL file URL " ++ c.acl), [Event.urlParse c.acl], files)
    | Except.ok uriStr =>
      match oo.loadConfig c.config with
      | Except.error _ =>
        (Except.error "WARN  Could not load configuration",
         [Event.urlParse c.acl, Event.loadConfig c.config], files)
      | Except.ok () =>
        let (res, tr, files2) := c.execute o uriStr files
        (res, [Event.urlParse c.acl, Event.loadConfig c.config, Event.getDevices] ++ tr, files2)

/-- The earlier revision of the command configuration (second source file,
lines 32-44): no report URL, no template, no `noreport` option. -/
structure CompareACLv1 where
  url : String
  config : String
  workdir : String
  keysdir : String
  credentials : String
  region : String
  logFile : String
  logFileSize : Nat
  noverify : Bool
  nolog : Bool
  debug : Bool

/-- The `execute` method of the earlier revision (second source file, lines
121-162): the same fetch/untar/verify/parse/getACL pipeline — including the
dropped `untar` error (line 135) — then a `report` helper call whose result
is discarded (line 159), followed by an unconditional
`return fmt.Errorf("OOOPS")` (line 161). -/
def CompareACLv1.execute (c : CompareACLv1) (o : Oracles) (uri : String) :
    Except Err Unit × List Event :=
  let f := if goHasPre "s3://" uri then o.fetchS3 else o.fetchHTTP
  match f uri with
  | Except.error e => (Except.error e, [Event.logFetching uri])
  | Except.ok b =>
    let u := o.untar b
    -- the error component of `untar` is dropped here as well
    let tr := [Event.logFetching uri, Event.logFetched uri b.length,
               Event.logExtracted uri u.tsv.length u.signature.length]
    let tail : List Event → Except Err Unit × List Event := fun tr =>
      match o.parseTSV u.tsv with
      | Except.error e => (Except.error e, tr ++ [Event.parse u.tsv])
      | Except.ok list =>
        let tr := tr ++ [Event.parse u.tsv]
          ++ list.map (fun kl => Event.logRecords kl.1 kl.2.length)
        match o.getACL with
        | Except.error e => (Except.error e, tr ++ [Event.getACL])
        | Except.ok current =>
          -- report(current, list, c.workdir, log): result discarded
          let _ := o.reportV1 current list c.workdir
          (Except.error "OOOPS", tr ++ [Event.getACL, Event.reportV1 c.workdir])
    if c.noverify then
      tail tr
    else
      match o.verify u.uname u.tsv u.signature c.keysdir with
      | some e =>
        (Except.error e, tr ++ [Event.verify u.uname u.tsv u.signature c.keysdir])
      | none =>
        tail (tr ++ [Event.verify u.uname u.tsv u.signature c.keysdir])

/-- The `Execute` method of the earlier revision (second source file, lines
93-119): identical gate on a blank URL, then parse, load, resolve, run. -/
def CompareACLv1.Execute (c : CompareACLv1) (o : Oracles) (oo : OuterOracles) :
    Except Err Unit × List Event :=
  if goTrimSpace c.url = "" then
    (Except.error "compare-acl requires a URL for the authoritative ACL file in the command options",
     [])
  else
    match oo.urlParse c.url with
    | Except.error _ =>
      (Except.error ("Invalid ACL file URL " ++ c.url), [Event.urlParse c.url])
    | Except.ok uriStr =>
      match oo.loadConfig c.config with
      | Except.error _ =>
        (Except.error "WARN  Could not load configuration",
         [Event.urlParse c.url, Event.loadConfig c.config])
      | Except.ok () =>
        let (res, tr) := c.execute o uriStr
        (res, [Event.urlParse c.url, Event.loadConfig c.config, Event.getDevices] ++ tr)

/-- A small concrete ACL used to exercise the pipeline. -/
def sampleACL : ACL :=
  [(405419896, [{ key := 1001, fields := ["doorA"] }])]

/-- A benign oracle assignment under which every external step succeeds,
used to evaluate the embedded pipeline at concrete inputs. -/
def oraclesOK : Oracles :=
  { fetchHTTP := fun _ => Except.ok [1, 2, 3]
  , fetchS3 := fun _ => Except.ok [1, 2, 3]
  , untar := fun _ => { tsv := [10, 9, 65], signature := [4, 5], uname := "qwerty", err := none }
  , verify := fun _ _ _ _ => none
  , parseTSV := fun _ => Except.ok sampleACL
  , getACL := Except.ok sampleACL
  , render := fun _ _ _ => Except.ok "RPT"
  , createFile := fun _ => Except.ok ()
  , timeName := "acl-2020-08-19T123456.rpt"
  , sign := fun _ _ => Except.ok [7, 7]
  , targz := fun _ => Except.ok [9]
  , storeHTTP := fun _ _ => Except.ok ()
  , storeS3 := fun _ _ => Except.ok ()
  , reportV1 := fun _ _ _ => Except.ok () }

/-- The outer oracles with parsing and configuration loading succeeding. -/
def outerOK : OuterOracles :=
  { urlParse := fun s => Except.ok s
  , loadConfig := fun _ => Except.ok () }

/-- A concrete command configuration for evaluating the pipeline. -/
def sampleCfg : CompareACL :=
  { acl := "https://nowhere/acl.tar.gz"
  , rpt := ""
  , config := "uhppoted.conf"
  , workdir := "/var/uhppoted"
  , keysdir := "/etc/uhppoted/keys"
  , keyfile := "/etc/uhppoted/key"
  , credentials := ""
  , region := "us-east-1"
  , logFile := ""
  , logFileSize := 10
  , template := TEMPLATE
  , noverify := false
  , noreport := false
  , nolog := false
  , debug := false }

/-- A concrete configuration for the earlier revision of the command. -/
def sampleCfgV1 : CompareACLv1 :=
  { url := "https://nowhere/acl.tar.gz"
  , config := "uhppoted.conf"
  , workdir := "/var/uhppoted"
  , keysdir := "/etc/uhppoted/keys"
  , credentials := ""
  , region := "us-east-1"
  , logFile := ""
  , logFileSize := 10
  , noverify := false
  , nolog := false
  , debug := false }

/-- The partition property of a per-device diff (spec section 3, `Diff`
invariant): every record key present in either side appears in some
classification, and the four classification key sets are pairwise
disjoint. -/
def partitions (d : Diff) (cur auth : List Record) : Prop :=
  (∀ k, (k ∈ keysR cur ∨ k ∈ keysR auth) ↔
      (k ∈ d.unchangedKeys ∨ k ∈ d.updatedKeys ∨ k ∈ d.addedKeys ∨ k ∈ d.deletedKeys))
  ∧ (∀ k, ¬(k ∈ d.unchangedKeys ∧ k ∈ d.updatedKeys)
        ∧ ¬(k ∈ d.unchangedKeys ∧ k ∈ d.addedKeys)
        ∧ ¬(k ∈ d.unchangedKeys ∧ k ∈ d.deletedKeys)
        ∧ ¬(k ∈ d.updatedKeys ∧ k ∈ d.addedKeys)
        ∧ ¬(k ∈ d.updatedKeys ∧ k ∈ d.deletedKeys)
        ∧ ¬(k ∈ d.addedKeys ∧ k ∈ d.deletedKeys))

/-- The current ACL of the worked example of spec section 8: device `1`
holds record `1001` with field `doorB` and record `1002` with field
`doorA`. -/
def exCurrent : ACL :=
  [(1, [{ key := 1001, fields := ["doorB"] }, { key := 1002, fields := ["doorA"] }])]

/-- The authoritative ACL of the worked example of spec section 8: device
`1` holds record `1001` with field `doorA`. -/
def exAuth : ACL :=
  [(1, [{ key := 1001, fields := ["doorA"] }])]

/-- Oracles under which verification rejects the payload and everything
else succeeds. -/
def oraclesVerifyFail : Oracles :=
  { oraclesOK with verify := fun _ _ _ _ => some "signature mismatch" }

/-- Oracles under which `untar` fails (malformed archive) — returning empty
payload and signature components alongside the error — and every later step
succeeds. -/
def oraclesUntarFail : Oracles :=
  { oraclesOK with untar := fun _ =>
      { tsv := [], signature := [], uname := "", err := some "tar: unexpected EOF" } }

/-- Oracles under which template rendering fails and everything else
succeeds. -/
def oraclesRenderFail : Oracles :=
  { oraclesOK with render := fun _ _ _ => Except.error "template: exec failed" }

/-- Oracles under which signing the outgoing report fails and everything
else succeeds. -/
def oraclesSignFail : Oracles :=
  { oraclesOK with sign := fun _ _ => Except.error "openssl: no such key" }

/-- The sample configuration with the `no-report` option set. -/
def sampleCfgNoReport : CompareACL :=
  { sampleCfg with noreport := true }

/-- The sample configuration with a report upload URL configured. -/
def sampleCfgRpt : CompareACL :=
  { sampleCfg with rpt := "s3://bucket/report.tar.gz" }

/-- The sample configuration with the verification bypass set. -/
def sampleCfgNoVerify : CompareACL :=
  { sampleCfg with noverify := true }

/-! ## Theorems -/

theorem lookupR_key {rs : List Record} {k : Nat} {r : Record}
    (h : lookupR rs k = some r) : r.key = k := by
  have := List.find?_some h
  simpa using this

theorem mem_keysR {rs : List Record} {k : Nat} :
    k ∈ keysR rs ↔ (lookupR rs k).isSome := by
  simp only [keysR, lookupR, List.mem_dedup, List.mem_map, List.find?_isSome]
  constructor
  · rintro ⟨r, hr, hk⟩
    exact ⟨r, hr, by simp [hk]⟩
  · rintro ⟨r, hr, hk⟩
    exact ⟨r, hr, by simpa using hk⟩

theorem mem_map_filterMap_keys {α : Type} (ks : List Nat) (f : Nat → Option α)
    (proj : α → Nat) (hf : ∀ k x, f k = some x → proj x = k) (k : Nat) :
    k ∈ (ks.filterMap f).map proj ↔ k ∈ ks ∧ (f k).isSome := by
  simp only [List.mem_map, List.mem_filterMap]
  constructor
  · rintro ⟨x, ⟨k', hk', hfx⟩, hproj⟩
    have hk : k' = k := by rw [← hproj, hf k' x hfx]
    subst hk
    exact ⟨hk', by simp [hfx]⟩
  · rintro ⟨hk, hsome⟩
    rcases Option.isSome_iff_exists.mp hsome with ⟨x, hfx⟩
    exact ⟨x, ⟨k, hk, hfx⟩, hf k x hfx⟩

theorem classifyUnchanged_key (cur auth : List Record) :
    ∀ k x, classifyUnchanged cur auth k = some x → x.key = k := by
  intro k x h
  unfold classifyUnchanged at h
  rcases hc : lookupR cur k with _ | rc <;> rcases ha : lookupR auth k with _ | ra <;>
    rw [hc, ha] at h <;> simp at h
  rcases h with ⟨heq, hx⟩
  exact hx ▸ lookupR_key hc

theorem classifyUpdated_key (cur auth : List Record) :
    ∀ k x, classifyUpdated cur auth k = some x → x.1.key = k := by
  intro k x h
  unfold classifyUpdated at h
  rcases hc : lookupR cur k with _ | rc <;> rcases ha : lookupR auth k with _ | ra <;>
    rw [hc, ha] at h <;> simp at h
  rcases h with ⟨hne, hx⟩
  exact hx ▸ lookupR_key hc

theorem classifyAdded_key (cur auth : List Record) :
    ∀ k x, classifyAdded cur auth k = some x → x.key = k := by
  intro k x h
  unfold classifyAdded at h
  rcases hc : lookupR cur k with _ | rc <;> rcases ha : lookupR auth k with _ | ra <;>
    rw [hc, ha] at h <;> simp at h
  exact h ▸ lookupR_key ha

theorem classifyDeleted_key (cur auth : List Record) :
    ∀ k x, classifyDeleted cur auth k = some x → x.key = k := by
  intro k x h
  unfold classifyDeleted at h
  rcases hc : lookupR cur k with _ | rc <;> rcases ha : lookupR auth k with _ | ra <;>
    rw [hc, ha] at h <;> simp at h
  exact h ▸ lookupR_key hc

theorem mem_unionKeys {cur auth : List Record} {k : Nat} :
    k ∈ unionKeys cur auth ↔ (lookupR cur k).isSome ∨ (lookupR auth k).isSome := by
  simp [unionKeys, List.mem_dedup, List.mem_append, mem_keysR]

theorem diffRecords_partitions (cur auth : List Record) :
    partitions (diffRecords cur auth) cur auth := by
  have hU : ∀ k, k ∈ (diffRecords cur auth).unchangedKeys ↔
      k ∈ unionKeys cur auth ∧ (classifyUnchanged cur auth k).isSome := fun k =>
    mem_map_filterMap_keys _ _ _ (classifyUnchanged_key cur auth) k
  have hP : ∀ k, k ∈ (diffRecords cur auth).updatedKeys ↔
      k ∈ unionKeys cur auth ∧ (classifyUpdated cur auth k).isSome := fun k =>
    mem_map_filterMap_keys _ _ _ (classifyUpdated_key cur auth) k
  have hA : ∀ k, k ∈ (diffRecords cur auth).addedKeys ↔
      k ∈ unionKeys cur auth ∧ (classifyAdded cur auth k).isSome := fun k =>
    mem_map_filterMap_keys _ _ _ (classifyAdded_key cur auth) k
  have hD : ∀ k, k ∈ (diffRecords cur auth).deletedKeys ↔
      k ∈ unionKeys cur auth ∧ (classifyDeleted cur auth k).isSome := fun k =>
    mem_map_filterMap_keys _ _ _ (classifyDeleted_key cur auth) k
  have hsome : ∀ k, k ∈ unionKeys cur auth →
      ((classifyUnchanged cur auth k).isSome ∨ (classifyUpdated cur auth k).isSome ∨
       (classifyAdded cur auth k).isSome ∨ (classifyDeleted cur auth k).isSome) := by
    intro k hk
    rcases hc : lookupR cur k with _ | rc <;> rcases ha : lookupR auth k with _ | ra
    · rcases mem_unionKeys.mp hk with h | h <;> simp [hc, ha] at h
    · simp [classifyAdded, hc, ha]
    · simp [classifyDeleted, hc, ha]
    · by_cases h : rc = ra
      · simp [classifyUnchanged, hc, ha, h]
      · simp [classifyUpdated, hc, ha, h]
  have hexcl : ∀ k,
      ¬((classifyUnchanged cur auth k).isSome ∧ (classifyUpdated cur auth k).isSome)
    ∧ ¬((classifyUnchanged cur auth k).isSome ∧ (classifyAdded cur auth k).isSome)
    ∧ ¬((classifyUnchanged cur auth k).isSome ∧ (classifyDeleted cur auth k).isSome)
    ∧ ¬((classifyUpdated cur auth k).isSome ∧ (classifyAdded cur auth k).isSome)
    ∧ ¬((classifyUpdated cur auth k).isSome ∧ (classifyDeleted cur auth k).isSome)
    ∧ ¬((classifyAdded cur auth k).isSome ∧ (classifyDeleted cur auth k).isSome) := by
    intro k
    rcases hc : lookupR cur k with _ | rc <;> rcases ha : lookupR auth k with _ | ra
    · simp [classifyUnchanged, classifyUpdated, classifyAdded, classifyDeleted, hc, ha]
    · simp [classifyUnchanged, classifyUpdated, classifyDeleted, hc, ha]
    · simp [classifyUnchanged, classifyUpdated, classifyAdded, hc, ha]
    · by_cases h : rc = ra <;>
        simp [classifyUnchanged, classifyUpdated, classifyAdded, classifyDeleted, hc, ha, h]
  constructor
  · intro k
    have hks : (k ∈ keysR cur ∨ k ∈ keysR auth) ↔ k ∈ unionKeys cur auth := by
      simp [unionKeys, List.mem_dedup, List.mem_append]
    rw [hks, hU k, hP k, hA k, hD k]
    constructor
    · intro hk
      rcases hsome k hk with h | h | h | h
      · exact Or.inl ⟨hk, h⟩
      · exact Or.inr (Or.inl ⟨hk, h⟩)
      · exact Or.inr (Or.inr (Or.inl ⟨hk, h⟩))
      · exact Or.inr (Or.inr (Or.inr ⟨hk, h⟩))
    · rintro (⟨hk, _⟩ | ⟨hk, _⟩ | ⟨hk, _⟩ | ⟨hk, _⟩) <;> exact hk
  · intro k
    obtain ⟨e1, e2, e3, e4, e5, e6⟩ := hexcl k
    refine ⟨?_, ?_, ?_, ?_, ?_, ?_⟩
    · rintro ⟨h1, h2⟩; exact e1 ⟨((hU k).mp h1).2, ((hP k).mp h2).2⟩
    · rintro ⟨h1, h2⟩; exact e2 ⟨((hU k).mp h1).2, ((hA k).mp h2).2⟩
    · rintro ⟨h1, h2⟩; exact e3 ⟨((hU k).mp h1).2, ((hD k).mp h2).2⟩
    · rintro ⟨h1, h2⟩; exact e4 ⟨((hP k).mp h1).2, ((hA k).mp h2).2⟩
    · rintro ⟨h1, h2⟩; exact e5 ⟨((hP k).mp h1).2, ((hD k).mp h2).2⟩
    · rintro ⟨h1, h2⟩; exact e6 ⟨((hA k).mp h1).2, ((hD k).mp h2).2⟩

/-- Claim C2: for every pair of current and authoritative ACLs and every
device appearing in either, the diff the Diff Engine produces for that
device assigns each record key from the union of both sides' key sets to
exactly one of `Unchanged`, `Updated`, `Added`, `Deleted`: the four key
sets are pairwise disjoint and their union equals the union of record keys
from both sides. -/
theorem compare_diff_partition (current authoritative : ACL) (dev : Nat)
    (hdev : dev ∈ deviceIds current ∨ dev ∈ deviceIds authoritative) :
    (dev, diffRecords (recordsFor current dev) (recordsFor authoritative dev))
        ∈ compareACLs current authoritative
    ∧ partitions (diffRecords (recordsFor current dev) (recordsFor authoritative dev))
        (recordsFor current dev) (recordsFor authoritative dev) := by
  constructor
  · simp only [compareACLs, List.mem_map]
    refine ⟨dev, ?_, rfl⟩
    simpa [List.mem_dedup, List.mem_append] using hdev
  · exact diffRecords_partitions _ _

/-- Witness for C2 at the worked example of spec section 8: device `1`,
current records `1001 ↦ doorB` and `1002 ↦ doorA`, authoritative record
`1001 ↦ doorA`. -/
theorem compare_diff_partition_witness :
    (1 ∈ deviceIds exCurrent ∨ 1 ∈ deviceIds exAuth)
    ∧ ((1, diffRecords (recordsFor exCurrent 1) (recordsFor exAuth 1))
          ∈ compareACLs exCurrent exAuth
       ∧ partitions (diffRecords (recordsFor exCurrent 1) (recordsFor exAuth 1))
          (recordsFor exCurrent 1) (recordsFor exAuth 1)) :=
  ⟨Or.inl (by decide), compare_diff_partition exCurrent exAuth 1 (Or.inl (by decide))⟩

/-- Claim C3 (code bug): `execute` assigns but never consults the error
returned by `untar` (`compare_acl.go` line 160; likewise line 135 of the
earlier revision).  Under oracles where `untar` fails — a malformed
archive, returning empty payload/signature components alongside the error —
the pipeline does not abort: it verifies and parses the partially-extracted
payload and, with the later steps succeeding, completes with no error, so
the `untar` error is lost in both revisions of the command. -/
theorem untar_error_dropped :
    (sampleCfg.execute oraclesUntarFail "https://nowhere/acl.tar.gz" []).1 = Except.ok ()
    ∧ Event.verify "" [] [] sampleCfg.keysdir
        ∈ (sampleCfg.execute oraclesUntarFail "https://nowhere/acl.tar.gz" []).2.1
    ∧ Event.parse [] ∈ (sampleCfg.execute oraclesUntarFail "https://nowhere/acl.tar.gz" []).2.1
    ∧ Event.parse [] ∈ (sampleCfgV1.execute oraclesUntarFail "https://nowhere/acl.tar.gz").2 :=
  ⟨rfl, by decide, by decide, by decide⟩

/-- Claim C4 (code bug): when the `no-report` option is set, the `report`
method renders to stdout and discards the rendering error
(`compare_acl.go` line 231), so `execute` completes with no error although
report generation failed; in the local-file mode the same rendering error
is propagated.  The claim that a report-generation failure is fatal "in
both output modes" therefore fails in the `no-report` mode. -/
theorem render_error_swallowed :
    ((sampleCfgNoReport.execute oraclesRenderFail "https://nowhere/acl.tar.gz" []).1
        = Except.ok ())
    ∧ ((sampleCfg.execute oraclesRenderFail "https://nowhere/acl.tar.gz" []).1
        = Except.error "template: exec failed") :=
  ⟨rfl, rfl⟩

/-- Claim C5 (code bug): under oracles where every pipeline step succeeds,
the earlier revision of `execute` still returns the unconditional
`fmt.Errorf("OOOPS")` (second source file, line 161), while the current
revision returns nil as the claim states (`compare_acl.go` line 194). -/
theorem v1_unconditional_error :
    ((sampleCfgV1.execute oraclesOK "https://nowhere/acl.tar.gz").1 = Except.error "OOOPS")
    ∧ ((sampleCfg.execute oraclesOK "https://nowhere/acl.tar.gz" []).1 = Except.ok ()) :=
  ⟨rfl, rfl⟩

/-- Claim C6 (code bug): the `Incorrect:` section of the report template is
guarded by `$value.Unchanged`, not by the `Updated` collection it renders
(`compare_acl.go` line 37).  A device with a non-empty `Updated` collection
but no unchanged records renders without an `Incorrect:` section, and a
fully synchronized device (`Unchanged` non-empty, zero changes) renders an
`Incorrect:` header with no items; only the `Missing:` and `Unexpected:`
sections are emitted if and only if their own collections are non-empty. -/
theorem template_incorrect_section_guard :
    ((TDiff.mk [] ["1001 update"] ["1002 add"] ["1003 del"]).Updated ≠ []
      ∧ Line.incorrectHeader
          ∉ renderDevice 405419896 (TDiff.mk [] ["1001 update"] ["1002 add"] ["1003 del"])
      ∧ Line.missingHeader
          ∈ renderDevice 405419896 (TDiff.mk [] ["1001 update"] ["1002 add"] ["1003 del"])
      ∧ Line.unexpectedHeader
          ∈ renderDevice 405419896 (TDiff.mk [] ["1001 update"] ["1002 add"] ["1003 del"]))
    ∧ ((TDiff.mk ["1004 ok"] [] [] []).Updated = []
      ∧ renderDevice 405419896 (TDiff.mk ["1004 ok"] [] [] [])
          = [Line.device 405419896, Line.incorrectHeader]) := by
  decide

/-- Claim C1: with verification enabled (`noverify` not set), a failure of
`verify` on the extracted (signer, payload, signature) triple makes
`execute` return that error with the payload never parsed, the live device
state never retrieved, no rendering (and hence no diff) performed, and no
report file created: the file system is returned unchanged
(`compare_acl.go` lines 164-168). -/
theorem verify_failure_aborts (c : CompareACL) (o : Oracles) (uri : String)
    (files : Files) (b : Bytes) (e : Err)
    (hfetch : (if goHasPre "s3://" uri then o.fetchS3 else o.fetchHTTP) uri = Except.ok b)
    (hnv : c.noverify = false)
    (hverify : o.verify (o.untar b).uname (o.untar b).tsv (o.untar b).signature c.keysdir
        = some e) :
    (c.execute o uri files).1 = Except.error e
    ∧ (∀ t, Event.parse t ∉ (c.execute o uri files).2.1)
    ∧ Event.getACL ∉ (c.execute o uri files).2.1
    ∧ Event.render ∉ (c.execute o uri files).2.1
    ∧ (∀ p, Event.create p ∉ (c.execute o uri files).2.1)
    ∧ (c.execute o uri files).2.2 = files := by
  have hex : c.execute o uri files
      = (Except.error e,
         [Event.logFetching uri, Event.logFetched uri b.length,
          Event.logExtracted uri (o.untar b).tsv.length (o.untar b).signature.length,
          Event.verify (o.untar b).uname (o.untar b).tsv (o.untar b).signature c.keysdir],
         files) := by
    unfold CompareACL.execute
    simp only [hfetch, hnv, hverify]
    simp
  rw [hex]
  refine ⟨rfl, ?_, ?_, ?_, ?_, rfl⟩ <;> simp

/-- Witness for C1 at a concrete configuration and a rejecting verifier. -/
theorem verify_failure_aborts_witness :
    (((if goHasPre "s3://" "https://nowhere/acl.tar.gz" then oraclesVerifyFail.fetchS3
        else oraclesVerifyFail.fetchHTTP) "https://nowhere/acl.tar.gz" = Except.ok [1, 2, 3])
    ∧ sampleCfg.noverify = false
    ∧ oraclesVerifyFail.verify (oraclesVerifyFail.untar [1, 2, 3]).uname
        (oraclesVerifyFail.untar [1, 2, 3]).tsv (oraclesVerifyFail.untar [1, 2, 3]).signature
        sampleCfg.keysdir = some "signature mismatch")
    ∧ ((sampleCfg.execute oraclesVerifyFail "https://nowhere/acl.tar.gz" []).1
        = Except.error "signature mismatch"
      ∧ (∀ t, Event.parse t
          ∉ (sampleCfg.execute oraclesVerifyFail "https://nowhere/acl.tar.gz" []).2.1)
      ∧ Event.getACL ∉ (sampleCfg.execute oraclesVerifyFail "https://nowhere/acl.tar.gz" []).2.1
      ∧ Event.render ∉ (sampleCfg.execute oraclesVerifyFail "https://nowhere/acl.tar.gz" []).2.1
      ∧ (∀ p, Event.create p
          ∉ (sampleCfg.execute oraclesVerifyFail "https://nowhere/acl.tar.gz" []).2.1)
      ∧ (sampleCfg.execute oraclesVerifyFail "https://nowhere/acl.tar.gz" []).2.2 = []) :=
  ⟨⟨rfl, rfl, rfl⟩,
   verify_failure_aborts sampleCfg oraclesVerifyFail "https://nowhere/acl.tar.gz" [] [1, 2, 3]
     "signature mismatch" rfl rfl rfl⟩

theorem reportStep_no_parse (c : CompareACL) (o : Oracles) (current list : ACL)
    (files : Files) (t : Bytes) :
    Event.parse t ∉ (c.reportStep o current list files).2.1 := by
  unfold CompareACL.reportStep
  by_cases h : c.noreport = true
  · simp [h]
  · simp only [h]
    rcases hc : o.createFile (c.workdir ++ "/" ++ o.timeName) with e | u
    · simp [hc]
    · rcases hr : o.render current list c.template with e | text <;> simp [hc, hr]

theorem upload_no_parse (c : CompareACL) (o : Oracles) (current list : ACL) (t : Bytes) :
    Event.parse t ∉ (c.upload o current list).2 := by
  unfold CompareACL.upload
  rcases hr : o.render current list c.template with e | text
  · simp [hr]
  · rcases hs : o.sign (strBytes text) c.keyfile with e | sg
    · simp [hr, hs]
    · rcases ht : o.targz [(o.timeName, strBytes text), ("signature", sg)] with e | b
      · simp [hr, hs, ht]
      · rcases hst : (if goHasPre "s3://" c.rpt then o.storeS3 else o.storeHTTP) c.rpt b
            with e | u <;> simp [hr, hs, ht, hst]

theorem executeTail_parse (c : CompareACL) (o : Oracles) (tsv : Bytes) (files : Files) :
    (c.executeTail o tsv files).2.1.get? 0 = some (Event.parse tsv)
    ∧ ∀ t, Event.parse t ∈ (c.executeTail o tsv files).2.1 → t = tsv := by
  unfold CompareACL.executeTail
  rcases hp : o.parseTSV tsv with e | list
  · simp [hp]
  · simp only [hp]
    rcases hg : o.getACL with e | current
    · simp only [hg]
      refine ⟨by simp, ?_⟩
      intro t h
      simp at h
      exact h
    · simp only [hg]
      rcases hrs : c.reportStep o current list files with ⟨r, tr2, files2⟩
      have h2 : ∀ t, Event.parse t ∉ tr2 := by
        intro t
        have h3 := reportStep_no_parse c o current list files t
        rw [hrs] at h3
        exact h3
      rcases r with e | u
      · simp only [hrs]
        refine ⟨by simp, ?_⟩
        intro t h
        simp [h2 t] at h
        exact h
      · by_cases hrpt : c.rpt = ""
        · simp only [hrs, hrpt]
          refine ⟨by simp, ?_⟩
          intro t h
          simp [h2 t] at h
          exact h
        · rcases hup : c.upload o current list with ⟨ru, tr3⟩
          have h3 : ∀ t, Event.parse t ∉ tr3 := by
            intro t
            have h4 := upload_no_parse c o current list t
            rw [hup] at h4
            exact h4
          rcases ru with e | u2
          · simp only [hrs, hup, hrpt]
            refine ⟨by simp [hrpt], ?_⟩
            intro t h
            simp [hrpt, h2 t, h3 t] at h
            exact h
          · simp only [hrs, hup, hrpt]
            refine ⟨by simp [hrpt], ?_⟩
            intro t h
            simp [hrpt, h2 t, h3 t] at h
            exact h

/-- Claim C7: whenever `execute` reaches the TSV parse with verification
enabled, the fetch succeeded with some blob `b`, `verify` accepted and was
invoked — as trace position 3, directly before the parse at position 4 —
on exactly the payload bytes `untar` extracted from `b`, with no
transformation in between, and every parse in the run receives those same
bytes (`compare_acl.go` lines 159-173). -/
theorem verify_exact_bytes_before_parse (c : CompareACL) (o : Oracles) (uri : String)
    (files : Files)
    (hnv : c.noverify = false)
    (hparse : ∃ t, Event.parse t ∈ (c.execute o uri files).2.1) :
    ∃ b, (if goHasPre "s3://" uri then o.fetchS3 else o.fetchHTTP) uri = Except.ok b
    ∧ o.verify (o.untar b).uname (o.untar b).tsv (o.untar b).signature c.keysdir = none
    ∧ (c.execute o uri files).2.1.get? 3
        = some (Event.verify (o.untar b).uname (o.untar b).tsv (o.untar b).signature c.keysdir)
    ∧ (c.execute o uri files).2.1.get? 4 = some (Event.parse (o.untar b).tsv)
    ∧ ∀ t, Event.parse t ∈ (c.execute o uri files).2.1 → t = (o.untar b).tsv := by
  rcases hf : (if goHasPre "s3://" uri then o.fetchS3 else o.fetchHTTP) uri with e | b
  · exfalso
    obtain ⟨t, ht⟩ := hparse
    unfold CompareACL.execute at ht
    simp only [hf] at ht
    simp at ht
  · rcases hv : o.verify (o.untar b).uname (o.untar b).tsv (o.untar b).signature c.keysdir
        with _ | e2
    · have hex : (c.execute o uri files).2.1
          = Event.logFetching uri :: Event.logFetched uri b.length
            :: Event.logExtracted uri (o.untar b).tsv.length (o.untar b).signature.length
            :: Event.verify (o.untar b).uname (o.untar b).tsv (o.untar b).signature c.keysdir
            :: (c.executeTail o (o.untar b).tsv files).2.1 := by
        unfold CompareACL.execute
        simp only [hf, hnv, hv]
        simp
      obtain ⟨hget0, hmem⟩ := executeTail_parse c o (o.untar b).tsv files
      refine ⟨b, rfl, hv, ?_, ?_, ?_⟩
      · rw [hex]; simp
      · rw [hex]; simpa using hget0
      · intro t ht
        rw [hex] at ht
        simp at ht
        exact hmem t ht
    · exfalso
      obtain ⟨t, ht⟩ := hparse
      unfold CompareACL.execute at ht
      simp only [hf, hnv, hv] at ht
      simp at ht

/-- Witness for C7 at the benign oracles: the run parses, so the verify
call at position 3 precedes the parse at position 4 on the same bytes. -/
theorem verify_exact_bytes_before_parse_witness :
    (sampleCfg.noverify = false
    ∧ (∃ t, Event.parse t ∈ (sampleCfg.execute oraclesOK "https://nowhere/acl.tar.gz" []).2.1))
    ∧ (∃ b, (if goHasPre "s3://" "https://nowhere/acl.tar.gz" then oraclesOK.fetchS3
          else oraclesOK.fetchHTTP) "https://nowhere/acl.tar.gz" = Except.ok b
      ∧ oraclesOK.verify (oraclesOK.untar b).uname (oraclesOK.untar b).tsv
          (oraclesOK.untar b).signature sampleCfg.keysdir = none
      ∧ (sampleCfg.execute oraclesOK "https://nowhere/acl.tar.gz" []).2.1.get? 3
          = some (Event.verify (oraclesOK.untar b).uname (oraclesOK.untar b).tsv
              (oraclesOK.untar b).signature sampleCfg.keysdir)
      ∧ (sampleCfg.execute oraclesOK "https://nowhere/acl.tar.gz" []).2.1.get? 4
          = some (Event.parse (oraclesOK.untar b).tsv)
      ∧ ∀ t, Event.parse t ∈ (sampleCfg.execute oraclesOK "https://nowhere/acl.tar.gz" []).2.1
          → t = (oraclesOK.untar b).tsv) :=
  ⟨⟨rfl, ⟨[10, 9, 65], by decide⟩⟩,
   verify_exact_bytes_before_parse sampleCfg oraclesOK "https://nowhere/acl.tar.gz" [] rfl
     ⟨[10, 9, 65], by decide⟩⟩

theorem reportStep_no_verify (c : CompareACL) (o : Oracles) (current list : ACL)
    (files : Files) (u : String) (t s : Bytes) (kd : String) :
    Event.verify u t s kd ∉ (c.reportStep o current list files).2.1 := by
  unfold CompareACL.reportStep
  by_cases h : c.noreport = true
  · simp [h]
  · simp only [h]
    rcases hc : o.createFile (c.workdir ++ "/" ++ o.timeName) with e | un
    · simp [hc]
    · rcases hr : o.render current list c.template with e | text <;> simp [hc, hr]

theorem upload_no_verify (c : CompareACL) (o : Oracles) (current list : ACL)
    (u : String) (t s : Bytes) (kd : String) :
    Event.verify u t s kd ∉ (c.upload o current list).2 := by
  unfold CompareACL.upload
  rcases hr : o.render current list c.template with e | text
  · simp [hr]
  · rcases hs : o.sign (strBytes text) c.keyfile with e | sg
    · simp [hr, hs]
    · rcases ht : o.targz [(o.timeName, strBytes text), ("signature", sg)] with e | b
      · simp [hr, hs, ht]
      · rcases hst : (if goHasPre "s3://" c.rpt then o.storeS3 else o.storeHTTP) c.rpt b
            with e | un <;> simp [hr, hs, ht, hst]

theorem executeTail_no_verify (c : CompareACL) (o : Oracles) (tsv : Bytes) (files : Files)
    (u : String) (t s : Bytes) (kd : String) :
    Event.verify u t s kd ∉ (c.executeTail o tsv files).2.1 := by
  unfold CompareACL.executeTail
  rcases hp : o.parseTSV tsv with e | list
  · simp [hp]
  · simp only [hp]
    rcases hg : o.getACL with e | current
    · simp [hg]
    · simp only [hg]
      rcases hrs : c.reportStep o current list files with ⟨r, tr2, files2⟩
      have h2 : Event.verify u t s kd ∉ tr2 := by
        have h3 := reportStep_no_verify c o current list files u t s kd
        rw [hrs] at h3
        exact h3
      rcases r with e | un
      · simp only [hrs]
        simp [h2]
      · by_cases hrpt : c.rpt = ""
        · simp only [hrs, hrpt]
          simp [h2]
        · rcases hup : c.upload o current list with ⟨ru, tr3⟩
          have h3 : Event.verify u t s kd ∉ tr3 := by
            have h4 := upload_no_verify c o current list u t s kd
            rw [hup] at h4
            exact h4
          rcases ru with e | un2 <;> simp only [hrs, hup, hrpt] <;> simp [hrpt, h2, h3]

/-- Claim C8: when a report upload is configured and every step up to and
including the local report succeeds, a failure of `sign` inside `upload`
makes `execute` return that error while the local report file written by
the report step is still present with its content intact: the file system
after `execute` is exactly the file system after the report step, which
holds the newly created report (`compare_acl.go` lines 184-192 and
250-264; `upload` performs no file-system operation). -/
theorem sign_failure_keeps_local_report (c : CompareACL) (o : Oracles) (uri : String)
    (files : Files) (b : Bytes) (list current : ACL) (text : String) (e : Err)
    (hfetch : (if goHasPre "s3://" uri then o.fetchS3 else o.fetchHTTP) uri = Except.ok b)
    (hnv : c.noverify = false)
    (hv : o.verify (o.untar b).uname (o.untar b).tsv (o.untar b).signature c.keysdir = none)
    (hp : o.parseTSV (o.untar b).tsv = Except.ok list)
    (hg : o.getACL = Except.ok current)
    (hnr : c.noreport = false)
    (hcf : o.createFile (c.workdir ++ "/" ++ o.timeName) = Except.ok ())
    (hr : o.render current list c.template = Except.ok text)
    (hrpt : c.rpt ≠ "")
    (hs : o.sign (strBytes text) c.keyfile = Except.error e) :
    (c.execute o uri files).1 = Except.error e
    ∧ (c.execute o uri files).2.2 = files ++ [(c.workdir ++ "/" ++ o.timeName, text)] := by
  unfold CompareACL.execute CompareACL.executeTail CompareACL.reportStep CompareACL.upload
  simp only [hfetch, hnv, hv, hp, hg, hnr, hcf, hr, hs]
  simp [hrpt]

/-- Witness for C8 at a concrete configuration with a report URL and a
failing signer. -/
theorem sign_failure_keeps_local_report_witness :
    (((if goHasPre "s3://" "https://nowhere/acl.tar.gz" then oraclesSignFail.fetchS3
        else oraclesSignFail.fetchHTTP) "https://nowhere/acl.tar.gz" = Except.ok [1, 2, 3])
    ∧ sampleCfgRpt.noverify = false
    ∧ oraclesSignFail.verify (oraclesSignFail.untar [1, 2, 3]).uname
        (oraclesSignFail.untar [1, 2, 3]).tsv (oraclesSignFail.untar [1, 2, 3]).signature
        sampleCfgRpt.keysdir = none
    ∧ oraclesSignFail.parseTSV (oraclesSignFail.untar [1, 2, 3]).tsv = Except.ok sampleACL
    ∧ oraclesSignFail.getACL = Except.ok sampleACL
    ∧ sampleCfgRpt.noreport = false
    ∧ oraclesSignFail.createFile (sampleCfgRpt.workdir ++ "/" ++ oraclesSignFail.timeName)
        = Except.ok ()
    ∧ oraclesSignFail.render sampleACL sampleACL sampleCfgRpt.template = Except.ok "RPT"
    ∧ sampleCfgRpt.rpt ≠ ""
    ∧ oraclesSignFail.sign (strBytes "RPT") sampleCfgRpt.keyfile
        = Except.error "openssl: no such key")
    ∧ ((sampleCfgRpt.execute oraclesSignFail "https://nowhere/acl.tar.gz" []).1
        = Except.error "openssl: no such key"
      ∧ (sampleCfgRpt.execute oraclesSignFail "https://nowhere/acl.tar.gz" []).2.2
        = [] ++ [(sampleCfgRpt.workdir ++ "/" ++ oraclesSignFail.timeName, "RPT")]) :=
  ⟨⟨rfl, rfl, rfl, rfl, rfl, rfl, rfl, rfl, by decide, rfl⟩,
   sign_failure_keeps_local_report sampleCfgRpt oraclesSignFail "https://nowhere/acl.tar.gz" []
     [1, 2, 3] sampleACL sampleACL "RPT" "openssl: no such key"
     rfl rfl rfl rfl rfl rfl rfl rfl (by decide) rfl⟩

/-- Claim C9, amended: verification is skipped if and only if `noverify` is
set — with the fetch succeeding, a verify call appears in the trace exactly
when `noverify` is false — and `noverify` defaults to `false` in
`COMPARE_ACL`, so verification is performed by default.  However the bypass
is silent, not logged: when verification would succeed, the log lines of a
bypassed run are identical to those of a verified run, so no log entry
records the skip (the `if !c.noverify` branch at `compare_acl.go` lines
164-168 contains no logging; `FlagSet` does not even register a
`no-verify` flag). -/
theorem noverify_skip_iff_and_silent (c : CompareACL) (o : Oracles) (uri : String)
    (files : Files) (b : Bytes)
    (hfetch : (if goHasPre "s3://" uri then o.fetchS3 else o.fetchHTTP) uri = Except.ok b) :
    ((∃ u t s kd, Event.verify u t s kd ∈ (c.execute o uri files).2.1) ↔ c.noverify = false)
    ∧ (∀ d : Defaults, (COMPARE_ACL d).noverify = false)
    ∧ (o.verify (o.untar b).uname (o.untar b).tsv (o.untar b).signature c.keysdir = none →
        (CompareACL.execute { c with noverify := true } o uri files).2.1.filter Event.isLog
          = (CompareACL.execute { c with noverify := false } o uri files).2.1.filter
              Event.isLog) := by
  refine ⟨?_, fun d => rfl, ?_⟩
  · constructor
    · rintro ⟨u, t, s, kd, h⟩
      by_cases hnv : c.noverify = true
      · exfalso
        unfold CompareACL.execute at h
        simp only [hfetch, hnv] at h
        simp at h
        exact executeTail_no_verify c o (o.untar b).tsv files u t s kd h
      · simpa using hnv
    · intro hnv
      refine ⟨(o.untar b).uname, (o.untar b).tsv, (o.untar b).signature, c.keysdir, ?_⟩
      unfold CompareACL.execute
      simp only [hfetch, hnv]
      rcases hv : o.verify (o.untar b).uname (o.untar b).tsv (o.untar b).signature c.keysdir
          with _ | e2 <;> simp [hv]
  · intro hv
    have hTail : CompareACL.executeTail { c with noverify := true } o (o.untar b).tsv files
        = CompareACL.executeTail { c with noverify := false } o (o.untar b).tsv files := rfl
    unfold CompareACL.execute
    simp only [hfetch]
    simp only [hv]
    simp [hTail, List.filter_cons, Event.isLog]

/-- Witness for C9 (amended) at the benign oracles. -/
theorem noverify_skip_iff_and_silent_witness :
    ((if goHasPre "s3://" "https://nowhere/acl.tar.gz" then oraclesOK.fetchS3
        else oraclesOK.fetchHTTP) "https://nowhere/acl.tar.gz" = Except.ok [1, 2, 3])
    ∧ (((∃ u t s kd, Event.verify u t s kd
          ∈ (sampleCfg.execute oraclesOK "https://nowhere/acl.tar.gz" []).2.1)
        ↔ sampleCfg.noverify = false)
      ∧ (∀ d : Defaults, (COMPARE_ACL d).noverify = false)
      ∧ (oraclesOK.verify (oraclesOK.untar [1, 2, 3]).uname (oraclesOK.untar [1, 2, 3]).tsv
            (oraclesOK.untar [1, 2, 3]).signature sampleCfg.keysdir = none →
          (CompareACL.execute { sampleCfg with noverify := true } oraclesOK
              "https://nowhere/acl.tar.gz" []).2.1.filter Event.isLog
            = (CompareACL.execute { sampleCfg with noverify := false } oraclesOK
              "https://nowhere/acl.tar.gz" []).2.1.filter Event.isLog)) :=
  ⟨rfl,
   noverify_skip_iff_and_silent sampleCfg oraclesOK "https://nowhere/acl.tar.gz" [] [1, 2, 3]
     rfl⟩

/-- Counterexample for C9 as stated: the bypass is not surfaced as a logged
bypass.  At a concrete run in which verification succeeds, the log lines of
the run with `noverify` set are identical to the log lines of the run with
verification performed — no log entry distinguishes the bypass, so the
skip is a silent code path, contrary to the claim. -/
theorem noverify_bypass_not_logged :
    sampleCfgNoVerify.noverify = true
    ∧ sampleCfg.noverify = false
    ∧ (sampleCfgNoVerify.execute oraclesOK "https://nowhere/acl.tar.gz" []).2.1.filter
        Event.isLog
      = (sampleCfg.execute oraclesOK "https://nowhere/acl.tar.gz" []).2.1.filter Event.isLog :=
  ⟨rfl, rfl, rfl⟩

/-- Claim C10: a blank (empty or all-whitespace) authoritative ACL URL makes
`Execute` return an error immediately: the trace is empty — no URL parse,
no configuration load, no device resolution, no fetch, no unpack and no
report — and the file system is unchanged.  The check is the first
statement of `Execute` in both revisions (`compare_acl.go` lines 119-121;
second source file, lines 94-96). -/
theorem blank_url_rejected (c : CompareACL) (o : Oracles) (oo : OuterOracles)
    (files : Files) (c1 : CompareACLv1)
    (h : goTrimSpace c.acl = "") (h1 : goTrimSpace c1.url = "") :
    c.Execute o oo files
      = (Except.error "compare-acl requires a URL for the authoritative ACL file in the command options",
         [], files)
    ∧ CompareACLv1.Execute c1 o oo
      = (Except.error "compare-acl requires a URL for the authoritative ACL file in the command options",
         []) := by
  unfold CompareACL.Execute CompareACLv1.Execute
  simp [h, h1]

/-- Witness for C10 at a whitespace-only URL (current revision) and an
empty URL (earlier revision). -/
theorem blank_url_rejected_witness :
    (goTrimSpace ({ sampleCfg with acl := " \t " } : CompareACL).acl = ""
    ∧ goTrimSpace ({ sampleCfgV1 with url := "" } : CompareACLv1).url = "")
    ∧ (CompareACL.Execute { sampleCfg with acl := " \t " } oraclesOK outerOK []
        = (Except.error "compare-acl requires a URL for the authoritative ACL file in the command options",
           [], [])
      ∧ CompareACLv1.Execute { sampleCfgV1 with url := "" } oraclesOK outerOK
        = (Except.error "compare-acl requires a URL for the authoritative ACL file in the command options",
           [])) :=
  ⟨⟨by decide, by decide⟩,
   blank_url_rejected { sampleCfg with acl := " \t " } oraclesOK outerOK []
     { sampleCfgV1 with url := "" } (by decide) (by decide)⟩
